import Mathlib

/-!
# Verification of the 1on1-app real-time session relay and advice-trigger engine

Shallow embedding of `src/backend/main.py` (the `ConnectionManager` registry,
the `generate_advice` throttled advice pipeline, the `on_message` Deepgram
utterance handler, the `process_audio` relay loop and the WebSocket endpoint
control flow) and of the call binding of `src/backend/db.py`'s
`create_session`.

Python dicts keyed by session id are embedded as functions `String → Option _`;
WebSocket connections are identified by `Nat` ids; external collaborators
(Supabase, Gemini, Deepgram) are environments of `Except`-valued oracles;
side effects (broadcast, persistence, task dispatch) are recorded in effect
lists.
-/

namespace OneOnOne

/-- One transcript entry as stored by `ConnectionManager.add_transcript`:
`{"speaker": speaker, "text": text}`. -/
structure TranscriptEntry where
  speaker : Nat
  text : String
deriving DecidableEq, Repr

/-- Pointwise update of a string-keyed map (dict assignment / deletion). -/
def upd {α : Type} (m : String → Option α) (k : String) (v : Option α) :
    String → Option α :=
  fun k2 => if k2 = k then v else m k2

/-- State of the in-memory `ConnectionManager` (main.py lines 43-48):
`active_connections`, `transcripts`, `session_metadata` (holding the
`subordinate_id`), `last_advice_transcript_count`. -/
structure ConnectionManager where
  active_connections : String → Option (List Nat)
  transcripts : String → Option (List TranscriptEntry)
  session_metadata : String → Option String
  last_advice_transcript_count : String → Option Nat

/-- The manager at process start: all four dicts empty. -/
def ConnectionManager.init : ConnectionManager :=
  ⟨fun _ => none, fun _ => none, fun _ => none, fun _ => none⟩

/-- `ConnectionManager.connect` (main.py lines 50-57): on a first observer for
the key, initialize an empty observer list, an empty transcript buffer and a
zero watermark; then append the websocket to the observer list.
(`session_metadata` is not initialized here.) -/
def ConnectionManager.connect (st : ConnectionManager) (websocket : Nat)
    (session_id : String) : ConnectionManager :=
  let st1 :=
    if (st.active_connections session_id).isSome then st
    else
      { st with
        active_connections := upd st.active_connections session_id (some []),
        transcripts := upd st.transcripts session_id (some []),
        last_advice_transcript_count :=
          upd st.last_advice_transcript_count session_id (some 0) }
  { st1 with
    active_connections :=
      upd st1.active_connections session_id
        (some (((st1.active_connections session_id).getD []) ++ [websocket])) }

/-- Python truthiness of an optional string (`if subordinate_id:`):
`None` and `""` are falsy. -/
def truthyStr : Option String → Bool
  | none => false
  | some s => s ≠ ""

/-- `ConnectionManager.set_session_info` (main.py lines 59-61): store the
subordinate id in the session metadata only when it is truthy. -/
def ConnectionManager.set_session_info (st : ConnectionManager)
    (session_id : String) (subordinate_id : Option String) : ConnectionManager :=
  if truthyStr subordinate_id then
    { st with session_metadata := upd st.session_metadata session_id subordinate_id }
  else st

/-- `ConnectionManager.get_subordinate_id` (main.py lines 63-65). -/
def ConnectionManager.get_subordinate_id (st : ConnectionManager)
    (session_id : String) : Option String :=
  st.session_metadata session_id

/-- `ConnectionManager.get_transcript_count` (main.py lines 67-68):
`len(self.transcripts.get(session_id, []))`. -/
def ConnectionManager.get_transcript_count (st : ConnectionManager)
    (session_id : String) : Nat :=
  ((st.transcripts session_id).getD []).length

/-- `ConnectionManager.get_last_advice_count` (main.py lines 70-71):
`self.last_advice_transcript_count.get(session_id, 0)`. -/
def ConnectionManager.get_last_advice_count (st : ConnectionManager)
    (session_id : String) : Nat :=
  (st.last_advice_transcript_count session_id).getD 0

/-- `ConnectionManager.update_last_advice_count` (main.py lines 73-74). -/
def ConnectionManager.update_last_advice_count (st : ConnectionManager)
    (session_id : String) (count : Nat) : ConnectionManager :=
  { st with
    last_advice_transcript_count :=
      upd st.last_advice_transcript_count session_id (some count) }

/-- `ConnectionManager.disconnect` (main.py lines 76-90): remove the websocket
from the observer list if present; if the list becomes empty, delete the
observer list, the transcript buffer, the session metadata and the watermark
for that key. -/
def ConnectionManager.disconnect (st : ConnectionManager) (websocket : Nat)
    (session_id : String) : ConnectionManager :=
  match st.active_connections session_id with
  | none => st
  | some conns =>
    let conns2 := if websocket ∈ conns then conns.erase websocket else conns
    if conns2.isEmpty then
      { active_connections := upd st.active_connections session_id none,
        transcripts := upd st.transcripts session_id none,
        session_metadata := upd st.session_metadata session_id none,
        last_advice_transcript_count :=
          upd st.last_advice_transcript_count session_id none }
    else
      { st with
        active_connections := upd st.active_connections session_id (some conns2) }

/-- A JSON message sent to observers over a WebSocket. -/
inductive Msg
  | transcript (text : String) (speaker : Nat)
  | advice (content : String)
  | db_session_id (id : String)
deriving DecidableEq, Repr

/-- `connection.send_json` may raise (connection closing); which connections
fail is an environment parameter `fails`. -/
def send_json (fails : Nat → Bool) (connection : Nat) (_msg : Msg) :
    Except Unit Unit :=
  if fails connection then .error () else .ok ()

/-- `ConnectionManager.broadcast` (main.py lines 92-98): try to send the
message to every current observer of the session, silently ignoring per-send
failures (`except Exception: pass`). Returns the list of connections that
actually received the message, in iteration order. -/
def ConnectionManager.broadcast (st : ConnectionManager) (msg : Msg)
    (session_id : String) (fails : Nat → Bool) : List Nat :=
  match st.active_connections session_id with
  | none => []
  | some conns =>
    conns.filterMap fun connection =>
      match send_json fails connection msg with
      | .ok _ => some connection
      | .error _ => none

/-- `ConnectionManager.add_transcript` (main.py lines 100-103): if the key has
no transcript list, create an empty one; then append the entry. -/
def ConnectionManager.add_transcript (st : ConnectionManager)
    (session_id : String) (text : String) (speaker : Nat) : ConnectionManager :=
  { st with
    transcripts :=
      upd st.transcripts session_id
        (some (((st.transcripts session_id).getD []) ++ [⟨speaker, text⟩])) }

/-- Python list slice `l[i:]`: a negative start counts from the end
(clamped at 0), a non-negative start is clamped at `len(l)`. -/
def pySliceFrom {α : Type} (i : Int) (l : List α) : List α :=
  if i < 0 then l.drop (Int.toNat ((l.length : Int) + i))
  else l.drop (Int.toNat (min i (l.length : Int)))

/-- `ConnectionManager.get_recent_context` (main.py lines 105-106):
`self.transcripts.get(session_id, [])[-limit:]` (default limit 20). -/
def ConnectionManager.get_recent_context (st : ConnectionManager)
    (session_id : String) (limit : Int := 20) : List TranscriptEntry :=
  pySliceFrom (-limit) ((st.transcripts session_id).getD [])

/-! ## The AdviceThrottler gate (main.py lines 115-121)

`generate_advice` begins with the throttle: read `current_count` and
`last_count`, return early when fewer than 10 new entries accumulated,
otherwise advance the watermark to `current_count` before doing anything
else. `maybe_trigger` is that prefix in isolation, as the spec's
`maybeTrigger(sessionKey) → boolean`. Python integer subtraction is `Int`
subtraction of the two `Nat` counts. -/

def ConnectionManager.maybe_trigger (st : ConnectionManager)
    (session_id : String) : Bool × ConnectionManager :=
  let current_count := st.get_transcript_count session_id
  let last_count := st.get_last_advice_count session_id
  if (current_count : Int) - (last_count : Int) < 10 then (false, st)
  else (true, st.update_last_advice_count session_id current_count)

/-! ## The advice pipeline (`generate_advice`, main.py lines 112-166) -/

/-- A subordinate record as returned by `db.get_subordinate`: only its
`personality_text` field is read (`sub.get("personality_text")`, which may be
absent/None). -/
structure Subordinate where
  personality_text : Option String
deriving DecidableEq, Repr

/-- External collaborators of the advice pipeline: the profile fetch
(`get_subordinate`, may raise), the Gemini generation call (may raise) and
whether the `save_advice` persistence call succeeds. -/
structure AdviceEnv where
  get_subordinate : String → Except Unit (Option Subordinate)
  generate_content : String → Except Unit String
  save_advice_ok : Bool

/-- Side effects emitted by the relay core towards the outside world. -/
inductive Effect
  | broadcast (msg : Msg)
  | saveTranscript (db_session_id : String) (text : String) (speaker : Nat)
  | saveAdvice (db_session_id : String) (text : String)
  | dispatchAdvice
deriving DecidableEq, Repr

/-- The personality block interpolated into the prompt when the subordinate
has truthy `personality_text` (main.py line 133). -/
def personalityBlock (ptxt : String) : String :=
  "\n【部下の特性データ (考慮すること)】\n" ++ ptxt ++ "\n"

/-- The advice prompt f-string (main.py lines 138-146). -/
def advicePrompt (personality_info conversation_text : String) : String :=
  "\n    あなたは1on1ミーティングのコーチです。以下の会話ログを分析し、\n    メンター（Speaker 0と仮定）に対して、次にすべき質問や、フィードバックのアドバイスを1文で出力してください。\n    \n    "
    ++ personality_info ++ "\n    \n    会話ログ:\n    " ++ conversation_text ++ "\n    "

/-- `"\n".join(f"Speaker {item['speaker']}: {item['text']}" for item in context)`
(main.py line 137). -/
def conversationText (context : List TranscriptEntry) : String :=
  String.intercalate "\n"
    (context.map fun item => "Speaker " ++ toString item.speaker ++ ": " ++ item.text)

/-- The enrichment block of `generate_advice` (main.py lines 127-135):
look up the session's subordinate id; when present, fetch the subordinate
inside `try/except` (a fetch failure leaves `personality_info` empty); when
the record exists and has truthy `personality_text`, build the block. -/
def personalityInfo (get_subordinate : String → Except Unit (Option Subordinate))
    (st1 : ConnectionManager) (session_id : String) : String :=
  match st1.get_subordinate_id session_id with
  | none => ""
  | some sub_id =>
    match get_subordinate sub_id with
    | .error _ => ""
    | .ok none => ""
    | .ok (some sub) =>
      match sub.personality_text with
      | none => ""
      | some ptxt => if ptxt ≠ "" then personalityBlock ptxt else ""

/-- The external effects of `generate_advice` after the watermark has been
advanced (main.py lines 123-166): empty context produces nothing; a Gemini
failure is caught and produces nothing; on success the advice is broadcast
and, when a db session id is present and the persistence call succeeds, also
saved (a save failure is caught after the broadcast). -/
def advice_effects (env : AdviceEnv) (st1 : ConnectionManager)
    (session_id : String) (db_session_id : Option String) : List Effect :=
  let context := st1.get_recent_context session_id
  if context = [] then []
  else
    let prompt := advicePrompt (personalityInfo env.get_subordinate st1 session_id)
      (conversationText context)
    match env.generate_content prompt with
    | .error _ => []
    | .ok response_text =>
      let advice_text := response_text.trim
      let broadcastEff := Effect.broadcast (Msg.advice advice_text)
      match db_session_id with
      | none => [broadcastEff]
      | some dbid =>
        if env.save_advice_ok then
          [broadcastEff, Effect.saveAdvice dbid advice_text]
        else [broadcastEff]

/-- `generate_advice` (main.py lines 112-166): the throttle check returns
early with no state change when fewer than 10 new entries accumulated since
the watermark; otherwise the watermark is advanced to the current count first
(trigger time) and the rest of the pipeline only emits external effects. -/
def generate_advice (env : AdviceEnv) (st : ConnectionManager)
    (session_id : String) (db_session_id : Option String) :
    ConnectionManager × List Effect :=
  let current_count := st.get_transcript_count session_id
  let last_count := st.get_last_advice_count session_id
  if (current_count : Int) - (last_count : Int) < 10 then (st, [])
  else
    let st1 := st.update_last_advice_count session_id current_count
    (st1, advice_effects env st1 session_id db_session_id)

/-! ## The Deepgram utterance handler (`on_message`, main.py lines 178-199) -/

/-- One word of a Deepgram result alternative; only the diarized speaker index
is read. -/
structure Word where
  speaker : Nat
deriving DecidableEq, Repr

/-- The part of a Deepgram `Transcript` event the handler reads:
`result.channel.alternatives[0].transcript` and
`result.channel.alternatives[0].words`. -/
structure DGResult where
  transcript : String
  words : List Word
deriving DecidableEq, Repr

/-- `on_message` (main.py lines 178-199): drop empty transcripts before any
effect; otherwise take the first word's speaker (0 when no words), append to
the session buffer, broadcast a transcript message, persist when a db session
id is present (failure caught), and dispatch the advice task. -/
def on_message (st : ConnectionManager) (session_id : String)
    (db_session_id : Option String) (save_transcript_ok : Bool)
    (result : DGResult) : ConnectionManager × List Effect :=
  let sentence := result.transcript
  if sentence.length = 0 then (st, [])
  else
    let speaker :=
      match result.words with
      | [] => 0
      | w :: _ => w.speaker
    let st1 := st.add_transcript session_id sentence speaker
    let saveEffs :=
      match db_session_id with
      | none => []
      | some dbid =>
        if save_transcript_ok then [Effect.saveTranscript dbid sentence speaker]
        else []
    (st1, Effect.broadcast (Msg.transcript sentence speaker) :: saveEffs
            ++ [Effect.dispatchAdvice])

/-! ## Lifecycle traces of the audio relay (`process_audio`, `ws_client`,
`ws_meeting_baas`)

Coroutine control flow is embedded as an event trace plus an optional escaping
exception; `try/except/finally` become combinators on such computations, with
Python semantics (the `finally` block runs after the handler; an exception in
`finally` replaces the body's). -/

/-- A lifecycle event observable at the system boundary. -/
inductive Ev
  | frameSent
  | finishCalled
  | leaveCalled
  | dbNotify
deriving DecidableEq, Repr

/-- A Python exception class relevant to the relay loop. -/
inductive PyErr
  | wsDisconnect
  | generic
deriving DecidableEq, Repr

/-- A finished computation: the events it emitted and the exception escaping
it, if any. -/
abbrev Comp := List Ev × Option PyErr

/-- `try body except WebSocketDisconnect: print(...)` (main.py lines 221-232). -/
def tryCatchWS (body : Comp) : Comp :=
  match body with
  | (evs, some PyErr.wsDisconnect) => (evs, none)
  | other => other

/-- `try body except Exception as e: print(...)` — catches everything. -/
def tryCatchAll (body : Comp) : Comp :=
  (body.1, none)

/-- `try body finally fin`: `fin` always runs after `body` (and after any
handler); an exception raised by `fin` replaces `body`'s escaping one. -/
def tryFinally (body fin : Comp) : Comp :=
  (body.1 ++ fin.1,
   match fin.2 with
   | some e => some e
   | none => body.2)

/-- Sequencing: the second computation runs only when the first did not raise. -/
def seqComp (a b : Comp) : Comp :=
  match a with
  | (evs, none) => (evs ++ b.1, b.2)
  | (evs, some e) => (evs, some e)

/-- How the `while True` receive loop of `process_audio` ends: an explicit
`websocket.disconnect` message (`break`), a `WebSocketDisconnect` exception,
or any other error while receiving or forwarding. -/
inductive LoopExit
  | normalEnd
  | clientDisconnect
  | streamError
deriving DecidableEq, Repr

/-- The receive/forward loop body (main.py lines 222-230): forwards `frames`
binary frames, then ends according to `exit`. -/
def audio_loop (exit : LoopExit) (frames : Nat) : Comp :=
  (List.replicate frames Ev.frameSent,
   match exit with
   | LoopExit.normalEnd => none
   | LoopExit.clientDisconnect => some PyErr.wsDisconnect
   | LoopExit.streamError => some PyErr.generic)

/-- `process_audio` (main.py lines 169-237): when the Deepgram connection
fails to start, return with no loop and no `finish`; otherwise run the loop
under `try/except WebSocketDisconnect/finally: await dg_connection.finish()`,
all inside the outer `try/except Exception`. -/
def process_audio_comp (start_ok : Bool) (exit : LoopExit) (frames : Nat) : Comp :=
  tryCatchAll
    (if start_ok then
      tryFinally (tryCatchWS (audio_loop exit frames)) ([Ev.finishCalled], none)
    else ([], none))

/-- The mic-mode body of `ws_client` (main.py lines 617-651): after
`manager.connect`, create the db session, notify the frontend, run
`process_audio`; the whole body is under `try/except Exception/finally:
manager.disconnect(...)`. -/
def ws_client_comp (start_ok : Bool) (exit : LoopExit) (frames : Nat) : Comp :=
  tryFinally
    (tryCatchAll (seqComp ([Ev.dbNotify], none) (process_audio_comp start_ok exit frames)))
    ([Ev.leaveCalled], none)

/-- The body of `ws_meeting_baas` (main.py lines 573-598): accept, look up the
session's subordinate (failure caught), then `process_audio`; there is no
`finally` and `manager.disconnect` is never called on this path. -/
def ws_meeting_baas_comp (start_ok : Bool) (exit : LoopExit) (frames : Nat) : Comp :=
  process_audio_comp start_ok exit frames

/-- Is the event a teardown lifecycle call (`finish` or `leave`)? -/
def isTeardown (e : Ev) : Bool :=
  e = Ev.finishCalled || e = Ev.leaveCalled

/-! ## Call binding of `db.create_session` (db.py lines 44-53)

`create_session` is declared with parameters `user_id`, `organization_id`,
`mode` (and no `**kwargs`). Python raises `TypeError` at a call site whose
keyword arguments include a name that is not a declared parameter left over
after binding the positional arguments. -/

/-- The declared parameter names of `db.create_session`, in order. -/
def create_session_params : List String :=
  ["user_id", "organization_id", "mode"]

/-- Python call binding succeeds iff the positional arguments do not exceed
the declared parameters and every keyword names a parameter not already bound
positionally. -/
def pyBindOk (params : List String) (npos : Nat) (kwargs : List String) : Bool :=
  decide (npos ≤ params.length) && kwargs.all (fun k => k ∈ params.drop npos)

/-- The keyword arguments `ws_client` (main.py lines 624-629) and
`join_meeting` (main.py lines 525-530) pass to `create_session`, after the
two positional arguments `user_info["id"]`, `user_info["organization_id"]`. -/
def create_session_call_kwargs : List String :=
  ["mode", "subordinate_id"]

/-- A sequence of single-entry appends, each followed by one throttle check
(`add_transcript` then the `maybe_trigger` prefix of `generate_advice`);
returns the final state and how many checks fired. -/
def run_appends (session_id : String) :
    List TranscriptEntry → ConnectionManager → ConnectionManager × Nat
  | [], st => (st, 0)
  | e :: rest, st =>
    let st1 := st.add_transcript session_id e.text e.speaker
    let tr := st1.maybe_trigger session_id
    let r := run_appends session_id rest tr.2
    (r.1, (if tr.1 then 1 else 0) + r.2)

/-! ## Helper lemmas -/

lemma upd_same {α : Type} (m : String → Option α) (k : String) (v : Option α) :
    upd m k v k = v := by
  simp [upd]

lemma upd_ne {α : Type} (m : String → Option α) (k k2 : String) (v : Option α)
    (h : k2 ≠ k) : upd m k v k2 = m k2 := by
  simp [upd, h]

lemma count_add_transcript (st : ConnectionManager) (sid t : String) (sp : Nat) :
    (st.add_transcript sid t sp).get_transcript_count sid
      = st.get_transcript_count sid + 1 := by
  simp [ConnectionManager.add_transcript, ConnectionManager.get_transcript_count,
    upd_same]

lemma last_add_transcript (st : ConnectionManager) (sid t : String) (sp : Nat) :
    (st.add_transcript sid t sp).get_last_advice_count sid
      = st.get_last_advice_count sid := rfl

lemma count_update_last (st : ConnectionManager) (sid : String) (n : Nat) :
    (st.update_last_advice_count sid n).get_transcript_count sid
      = st.get_transcript_count sid := rfl

lemma last_update_last (st : ConnectionManager) (sid : String) (n : Nat) :
    (st.update_last_advice_count sid n).get_last_advice_count sid = n := by
  simp [ConnectionManager.update_last_advice_count,
    ConnectionManager.get_last_advice_count, upd_same]

lemma maybe_trigger_fired (st : ConnectionManager) (sid : String) :
    (st.maybe_trigger sid).1 = true ↔
      (10 : Int) ≤ (st.get_transcript_count sid : Int)
        - (st.get_last_advice_count sid : Int) := by
  simp only [ConnectionManager.maybe_trigger]
  split
  · simpa using by omega
  · simpa using by omega

lemma maybe_trigger_state (st : ConnectionManager) (sid : String) :
    (st.maybe_trigger sid).2
      = if (st.maybe_trigger sid).1
        then st.update_last_advice_count sid (st.get_transcript_count sid)
        else st := by
  simp only [ConnectionManager.maybe_trigger]
  split <;> rfl

lemma generate_advice_state (env : AdviceEnv) (st : ConnectionManager)
    (sid : String) (db : Option String) :
    (generate_advice env st sid db).1 = (st.maybe_trigger sid).2 := by
  simp only [generate_advice, ConnectionManager.maybe_trigger]
  split <;> rfl

/-- Invariant for counting throttle fires: when the watermark equals the
count rounded down to a multiple of 10, each run of appends fires once per
multiple of 10 crossed. -/
lemma run_appends_fires (sid : String) (entries : List TranscriptEntry) :
    ∀ (st : ConnectionManager) (c : Nat),
      st.get_transcript_count sid = c →
      st.get_last_advice_count sid = 10 * (c / 10) →
      (run_appends sid entries st).2 = (c + entries.length) / 10 - c / 10 := by
  induction entries with
  | nil =>
    intro st c _ _
    simp [run_appends]
  | cons e rest ih =>
    intro st c hc hw
    have h1 : (st.add_transcript sid e.text e.speaker).get_transcript_count sid
        = c + 1 := by rw [count_add_transcript, hc]
    have h2 : (st.add_transcript sid e.text e.speaker).get_last_advice_count sid
        = 10 * (c / 10) := by rw [last_add_transcript, hw]
    by_cases hfire : ((c + 1 : Int)) - (10 * (c / 10) : Nat) < 10
    · -- the check does not fire
      have hnot : ((st.add_transcript sid e.text e.speaker).maybe_trigger sid)
          = (false, st.add_transcript sid e.text e.speaker) := by
        simp only [ConnectionManager.maybe_trigger, h1, h2]
        rw [if_pos (by exact_mod_cast hfire)]
      have hmod : (c + 1) / 10 = c / 10 := by omega
      have hrest := ih (st.add_transcript sid e.text e.speaker) (c + 1)
        h1 (by rw [h2]; omega)
      simp [run_appends, hnot, hrest]
      omega
    · -- the check fires and advances the watermark to c + 1
      have hyes : ((st.add_transcript sid e.text e.speaker).maybe_trigger sid)
          = (true, (st.add_transcript sid e.text e.speaker).update_last_advice_count
              sid (c + 1)) := by
        simp only [ConnectionManager.maybe_trigger, h1, h2]
        rw [if_neg (by exact_mod_cast hfire)]
      have hmod : (c + 1) / 10 = c / 10 + 1 := by omega
      have hrest := ih
        ((st.add_transcript sid e.text e.speaker).update_last_advice_count sid (c + 1))
        (c + 1) (by rw [count_update_last, h1]) (by rw [last_update_last]; omega)
      simp [run_appends, hyes, hrest]
      omega

/-- Is the effect an observer broadcast? -/
def isObserverBroadcast : Effect → Bool
  | Effect.broadcast _ => true
  | _ => false

lemma maybe_trigger_preserves (st : ConnectionManager) (sid : String) :
    ((st.maybe_trigger sid).2.active_connections = st.active_connections) ∧
    ((st.maybe_trigger sid).2.transcripts = st.transcripts) ∧
    ((st.maybe_trigger sid).2.session_metadata = st.session_metadata) := by
  simp only [ConnectionManager.maybe_trigger]
  split <;> exact ⟨rfl, rfl, rfl⟩

lemma advice_effects_fetch_error (gen : String → Except Unit String)
    (saveOk : Bool) (st1 : ConnectionManager) (sid : String)
    (db : Option String) :
    advice_effects ⟨fun _ => Except.error (), gen, saveOk⟩ st1 sid db
      = advice_effects ⟨fun _ => Except.ok none, gen, saveOk⟩ st1 sid db := by
  cases h : st1.get_subordinate_id sid <;>
    simp [advice_effects, personalityInfo, h]

lemma advice_effects_gen_error
    (fetch : String → Except Unit (Option Subordinate)) (saveOk : Bool)
    (st1 : ConnectionManager) (sid : String) (db : Option String) :
    advice_effects ⟨fetch, fun _ => Except.error (), saveOk⟩ st1 sid db = [] := by
  simp only [advice_effects]
  split <;> rfl

lemma advice_effects_save_filter
    (fetch : String → Except Unit (Option Subordinate))
    (gen : String → Except Unit String) (st1 : ConnectionManager)
    (sid : String) (db : Option String) :
    (advice_effects ⟨fetch, gen, false⟩ st1 sid db).filter isObserverBroadcast
      = (advice_effects ⟨fetch, gen, true⟩ st1 sid db).filter isObserverBroadcast := by
  simp only [advice_effects]
  split
  · rfl
  · cases hgen : gen (advicePrompt
      (personalityInfo fetch st1 sid)
      (conversationText (st1.get_recent_context sid))) <;>
      cases db <;>
      simp [personalityInfo, isObserverBroadcast, hgen]

/-! ## Claim theorems -/

/-- **C1**: for every session key, the advice throttle fires iff the current
transcript count minus the watermark is at least 10; on firing it advances the
watermark to the current count at trigger time; otherwise it returns with no
state change; `generate_advice` performs exactly this state change; and a
sequence of N single-entry appends, each followed by one trigger check,
fires exactly `N / 10` times from a fresh session. -/
theorem advice_throttle_correct (st : ConnectionManager) (sid : String) :
    ((st.maybe_trigger sid).1 = true ↔
      (10 : Int) ≤ (st.get_transcript_count sid : Int)
        - (st.get_last_advice_count sid : Int)) ∧
    ((st.maybe_trigger sid).1 = true →
      (st.maybe_trigger sid).2
        = st.update_last_advice_count sid (st.get_transcript_count sid)) ∧
    ((st.maybe_trigger sid).1 = false → (st.maybe_trigger sid).2 = st) ∧
    (∀ (env : AdviceEnv) (db : Option String),
      (generate_advice env st sid db).1 = (st.maybe_trigger sid).2) ∧
    (∀ entries : List TranscriptEntry,
      st.get_transcript_count sid = 0 → st.get_last_advice_count sid = 0 →
      (run_appends sid entries st).2 = entries.length / 10) := by
  refine ⟨maybe_trigger_fired st sid, ?_, ?_,
    fun env db => generate_advice_state env st sid db, ?_⟩
  · intro h
    rw [maybe_trigger_state st sid, h]
    simp
  · intro h
    rw [maybe_trigger_state st sid, h]
    simp
  · intro entries h0 hw
    have h := run_appends_fires sid entries st 0 h0 (by rw [hw])
    simpa using h

/-- Witness for C1: 25 single-entry appends from a fresh manager fire the
throttle exactly twice. -/
theorem advice_throttle_correct_witness :
    (run_appends "s" (List.replicate 25 ⟨0, "hi"⟩) ConnectionManager.init).2
      = 2 := by
  have h := (advice_throttle_correct ConnectionManager.init "s").2.2.2.2
    (List.replicate 25 ⟨0, "hi"⟩) rfl rfl
  simpa using h

/-- **C2, counterexample**: appending under the unknown key `"s"` of the
initial manager is not a no-op — it creates a one-entry transcript buffer for
`"s"` while `"s"` still has no observer set, so the buffer/observer
together-invariant is also broken. -/
theorem add_transcript_unknown_key_not_noop :
    ConnectionManager.init.transcripts "s" = none ∧
    (ConnectionManager.init.add_transcript "s" "hello" 0).transcripts "s"
      = some [⟨0, "hello"⟩] ∧
    (ConnectionManager.init.add_transcript "s" "hello" 0).active_connections "s"
      = none := by
  refine ⟨rfl, ?_, rfl⟩
  simp [ConnectionManager.add_transcript, ConnectionManager.init, upd]

/-- **C2, amended**: appending a transcript entry under a session key with no
observer set creates the transcript buffer for that key (if absent) and
appends the entry; the observer set stays absent (so a buffer can exist
without an observer set), and the other maps and other keys are unchanged. -/
theorem add_transcript_unknown_key_creates_buffer (st : ConnectionManager)
    (sid text : String) (speaker : Nat)
    (h : st.active_connections sid = none) :
    (st.add_transcript sid text speaker).transcripts sid
      = some (((st.transcripts sid).getD []) ++ [⟨speaker, text⟩]) ∧
    (st.add_transcript sid text speaker).active_connections sid = none ∧
    (st.add_transcript sid text speaker).session_metadata
      = st.session_metadata ∧
    (st.add_transcript sid text speaker).last_advice_transcript_count
      = st.last_advice_transcript_count ∧
    (∀ k, k ≠ sid → (st.add_transcript sid text speaker).transcripts k
      = st.transcripts k) := by
  refine ⟨?_, h, rfl, rfl, ?_⟩
  · simp [ConnectionManager.add_transcript, upd_same]
  · intro k hk
    simp [ConnectionManager.add_transcript, upd_ne _ _ _ _ hk]

/-- Witness for the amended C2 at the initial manager. -/
theorem add_transcript_unknown_key_creates_buffer_witness :
    (ConnectionManager.init.add_transcript "s" "hello" 0).transcripts "s"
      = some (((ConnectionManager.init.transcripts "s").getD [])
          ++ [⟨0, "hello"⟩]) :=
  (add_transcript_unknown_key_creates_buffer ConnectionManager.init
    "s" "hello" 0 rfl).1

/-- **C4**: a recognized utterance with empty text has no downstream effect —
`on_message` leaves the state unchanged and emits no broadcast, persistence or
advice-dispatch effect — and `on_message` preserves the invariant that no
buffer of any session contains an empty-text entry. -/
theorem empty_utterance_no_effect (st : ConnectionManager) (sid : String)
    (db : Option String) (save_ok : Bool) (result : DGResult) :
    (result.transcript = "" → on_message st sid db save_ok result = (st, [])) ∧
    ((∀ k e, e ∈ (st.transcripts k).getD [] → e.text ≠ "") →
      ∀ k e,
        e ∈ ((on_message st sid db save_ok result).1.transcripts k).getD [] →
        e.text ≠ "") := by
  constructor
  · intro h
    simp [on_message, h]
  · intro hinv k e he
    by_cases hz : result.transcript.length = 0
    · simp only [on_message, if_pos hz] at he
      exact hinv k e he
    · simp only [on_message, if_neg hz] at he
      by_cases hk : k = sid
      · subst hk
        simp only [ConnectionManager.add_transcript, upd_same, Option.getD_some,
          List.mem_append, List.mem_singleton] at he
        rcases he with he | he
        · exact hinv k e he
        · subst he
          intro hcontra
          exact hz (by rw [show result.transcript = "" from hcontra]; rfl)
      · simp only [ConnectionManager.add_transcript,
          upd_ne _ _ _ _ hk] at he
        exact hinv k e he

/-- Witness for C4: the empty utterance is dropped, and a concrete state with
all-nonempty buffers keeps that property through `on_message`. -/
theorem empty_utterance_no_effect_witness :
    on_message ConnectionManager.init "s" none true ⟨"", []⟩
      = (ConnectionManager.init, []) ∧
    (∀ k e,
      e ∈ ((on_message ConnectionManager.init "s" none true
        ⟨"hi", []⟩).1.transcripts k).getD [] → e.text ≠ "") := by
  constructor
  · exact (empty_utterance_no_effect ConnectionManager.init "s" none true
      ⟨"", []⟩).1 rfl
  · exact (empty_utterance_no_effect ConnectionManager.init "s" none true
      ⟨"hi", []⟩).2 (by intro k e he; simp [ConnectionManager.init] at he)

/-- **C3**: when a disconnect empties the observer set of a session, the
transcript buffer, watermark and metadata for that key are all discarded:
`get_recent_context` returns empty for every limit, `get_subordinate_id`
returns none, and a later `connect` on the same key starts from a fresh empty
buffer, a zero watermark and a singleton observer set. -/
theorem disconnect_last_observer_reclaims_state (st : ConnectionManager)
    (sid : String) (ws ws2 : Nat) (conns : List Nat)
    (hconns : st.active_connections sid = some conns)
    (hempty : (if ws ∈ conns then conns.erase ws else conns) = []) :
    (st.disconnect ws sid).active_connections sid = none ∧
    (st.disconnect ws sid).transcripts sid = none ∧
    (st.disconnect ws sid).session_metadata sid = none ∧
    (st.disconnect ws sid).last_advice_transcript_count sid = none ∧
    (∀ limit : Int, (st.disconnect ws sid).get_recent_context sid limit = []) ∧
    (st.disconnect ws sid).get_subordinate_id sid = none ∧
    ((st.disconnect ws sid).connect ws2 sid).transcripts sid = some [] ∧
    ((st.disconnect ws sid).connect ws2 sid).get_last_advice_count sid = 0 ∧
    ((st.disconnect ws sid).connect ws2 sid).active_connections sid
      = some [ws2] := by
  have hd : st.disconnect ws sid
      = { active_connections := upd st.active_connections sid none,
          transcripts := upd st.transcripts sid none,
          session_metadata := upd st.session_metadata sid none,
          last_advice_transcript_count :=
            upd st.last_advice_transcript_count sid none } := by
    simp [ConnectionManager.disconnect, hconns, hempty]
  rw [hd]
  refine ⟨upd_same _ _ _, upd_same _ _ _, upd_same _ _ _, upd_same _ _ _,
    ?_, upd_same _ _ _, ?_, ?_, ?_⟩
  · intro limit
    simp [ConnectionManager.get_recent_context, pySliceFrom, upd_same]
  · simp [ConnectionManager.connect, upd_same, upd]
  · simp [ConnectionManager.connect, ConnectionManager.get_last_advice_count,
      upd_same, upd]
  · simp [ConnectionManager.connect, upd_same, upd]

/-- Witness for C3: joining, attaching metadata and then disconnecting the
only observer leaves no buffer and no metadata for the key. -/
theorem disconnect_last_observer_reclaims_state_witness :
    ((((ConnectionManager.init.connect 1 "s").set_session_info "s"
        (some "sub")).disconnect 1 "s").transcripts "s" = none) ∧
    ((((ConnectionManager.init.connect 1 "s").set_session_info "s"
        (some "sub")).disconnect 1 "s").session_metadata "s" = none) := by
  have h := disconnect_last_observer_reclaims_state
    ((ConnectionManager.init.connect 1 "s").set_session_info "s" (some "sub"))
    "s" 1 2 [1] (by decide) (by decide)
  exact ⟨h.2.1, h.2.2.1⟩

/-- **C5, counterexample**: on the bot-ingest path (`ws_meeting_baas`), the
audio relay loop exits (here: client disconnect after two frames) and
`finish` runs, but no registry leave is ever invoked on that path — so "on
every exit of the audio relay loop the registry leave is invoked after
finish" is false. -/
theorem bot_path_loop_exit_without_leave :
    (ws_meeting_baas_comp true LoopExit.clientDisconnect 2).1
      = [Ev.frameSent, Ev.frameSent, Ev.finishCalled] ∧
    Ev.leaveCalled ∉ (ws_meeting_baas_comp true LoopExit.clientDisconnect 2).1 := by
  decide

/-- **C5, amended**: on every exit of the audio relay loop — normal
end-of-stream, client disconnect, or any error — `finish` is invoked exactly
once per bridge; on the mic-client path (`ws_client`) the registry leave is
then invoked exactly once, after `finish`, and no exception escapes; on the
bot-ingest path (`ws_meeting_baas`) only `finish` is invoked (that connection
never joined the registry). -/
theorem relay_teardown_finish_then_leave (exit : LoopExit) (frames : Nat) :
    (ws_client_comp true exit frames).1.filter isTeardown
      = [Ev.finishCalled, Ev.leaveCalled] ∧
    (ws_meeting_baas_comp true exit frames).1.filter isTeardown
      = [Ev.finishCalled] ∧
    (ws_client_comp true exit frames).2 = none := by
  have hrep : ∀ n, (List.replicate n Ev.frameSent).filter isTeardown = [] := by
    intro n
    induction n with
    | zero => rfl
    | succ m ih => simp [List.replicate_succ, isTeardown, ih]
  cases exit <;>
    simp [ws_client_comp, ws_meeting_baas_comp, process_audio_comp, tryFinally,
      tryCatchAll, tryCatchWS, seqComp, audio_loop, isTeardown, hrep]

/-- **C6**: a send failure on one observer is silently ignored and does not
prevent delivery to the others: with observer set `[a, b]` where sending to
`a` raises and sending to `b` succeeds, `broadcast` still delivers to `b`
and surfaces no error. -/
theorem broadcast_isolates_send_failure (st : ConnectionManager)
    (sid : String) (a b : Nat) (msg : Msg) (fails : Nat → Bool)
    (hobs : st.active_connections sid = some [a, b])
    (ha : fails a = true) (hb : fails b = false) :
    st.broadcast msg sid fails = [b] := by
  simp [ConnectionManager.broadcast, hobs, send_json, ha, hb]

/-- Witness for C6: observers 1 and 2, sending to 1 raises; 2 still receives. -/
theorem broadcast_isolates_send_failure_witness :
    ((ConnectionManager.init.connect 1 "s").connect 2 "s").broadcast
      (Msg.advice "hi") "s" (fun n => n == 1) = [2] :=
  broadcast_isolates_send_failure _ "s" 1 2 (Msg.advice "hi") (fun n => n == 1)
    (by decide) (by decide) (by decide)

/-- **C7** (code bug): `db.create_session` declares only `user_id`,
`organization_id`, `mode` — no profile (subordinate) parameter — so the call
sites in `ws_client` and `join_meeting`, which pass the keyword
`subordinate_id` after two positional arguments, fail Python keyword binding
(`TypeError`). -/
theorem create_session_subordinate_kw_rejected :
    pyBindOk create_session_params 2 create_session_call_kwargs = false ∧
    "subordinate_id" ∉ create_session_params ∧
    pyBindOk create_session_params 2 ["mode"] = true := by
  decide

/-- **C8, counterexample**: with `limit = 0`, Python's `[-0:]` slice returns
the whole buffer, not "at most 0" entries: a one-entry buffer yields a
one-entry result. -/
theorem recent_context_limit_zero_returns_all :
    (ConnectionManager.init.add_transcript "s" "a" 0).get_recent_context "s" 0
      = [⟨0, "a"⟩] ∧
    ¬ (((ConnectionManager.init.add_transcript "s" "a" 0).get_recent_context
        "s" 0).length ≤ 0) := by
  decide

/-- **C8, amended**: for every limit ≥ 1, `get_recent_context` returns at most
the last `limit` entries of the session's buffer — a suffix of the buffer, so
oldest-first — and returns the empty sequence when the session key is
unknown. (For `limit = 0` the code returns the entire buffer.) -/
theorem recent_context_bounded_suffix (st : ConnectionManager) (sid : String)
    (limit : Int) (hl : 1 ≤ limit) :
    ((st.get_recent_context sid limit).length : Int) ≤ limit ∧
    (st.get_recent_context sid limit) <:+ ((st.transcripts sid).getD []) ∧
    (st.transcripts sid = none → st.get_recent_context sid limit = []) := by
  have hneg : -limit < 0 := by omega
  refine ⟨?_, ?_, ?_⟩
  · simp only [ConnectionManager.get_recent_context, pySliceFrom, if_pos hneg,
      List.length_drop]
    omega
  · simp only [ConnectionManager.get_recent_context, pySliceFrom, if_pos hneg]
    exact List.drop_suffix _ _
  · intro h
    simp [ConnectionManager.get_recent_context, pySliceFrom, h]

/-- Witness for the amended C8 at a one-entry buffer with the default
limit 20. -/
theorem recent_context_bounded_suffix_witness :
    (((ConnectionManager.init.add_transcript "s" "a" 0).get_recent_context
        "s" 20).length : Int) ≤ 20 :=
  (recent_context_bounded_suffix
    (ConnectionManager.init.add_transcript "s" "a" 0) "s" 20 (by decide)).1

/-- **C10**: disconnecting one observer of a session that has at least two
leaves everything else intact: the transcript buffers, metadata and
watermarks are unchanged, the session keeps exactly the remaining observers,
and other sessions' observer sets are untouched. -/
theorem disconnect_one_of_many_frame (st : ConnectionManager) (sid : String)
    (ws : Nat) (conns : List Nat)
    (hconns : st.active_connections sid = some conns)
    (hlen : 2 ≤ conns.length) :
    (st.disconnect ws sid).transcripts = st.transcripts ∧
    (st.disconnect ws sid).session_metadata = st.session_metadata ∧
    (st.disconnect ws sid).last_advice_transcript_count
      = st.last_advice_transcript_count ∧
    (st.disconnect ws sid).active_connections sid
      = some (if ws ∈ conns then conns.erase ws else conns) ∧
    (∀ k, k ≠ sid → (st.disconnect ws sid).active_connections k
      = st.active_connections k) := by
  have hne2 : (if ws ∈ conns then conns.erase ws else conns) ≠ [] := by
    split
    · next hmem =>
        intro hnil
        have hl := List.length_erase_of_mem hmem
        rw [hnil] at hl
        simp at hl
        omega
    · intro hnil
      rw [hnil] at hlen
      simp at hlen
  have hne : (if ws ∈ conns then conns.erase ws else conns).isEmpty = false := by
    cases hE : (if ws ∈ conns then conns.erase ws else conns).isEmpty
    · rfl
    · exact absurd (List.isEmpty_iff.mp hE) hne2
  have hd : st.disconnect ws sid
      = { st with
          active_connections := upd st.active_connections sid
            (some (if ws ∈ conns then conns.erase ws else conns)) } := by
    simp [ConnectionManager.disconnect, hconns, hne]
  rw [hd]
  refine ⟨rfl, rfl, rfl, upd_same _ _ _, ?_⟩
  intro k hk
  exact upd_ne _ _ _ _ hk

/-- Witness for C10: with observers 1 and 2, disconnecting 2 keeps the
session alive with observer 1. -/
theorem disconnect_one_of_many_frame_witness :
    (((ConnectionManager.init.connect 1 "s").connect 2 "s").disconnect
        2 "s").active_connections "s"
      = some (if 2 ∈ [1, 2] then List.erase [1, 2] 2 else [1, 2]) :=
  (disconnect_one_of_many_frame _ "s" 2 [1, 2] (by decide) (by decide)).2.2.2.1

/-- **C9**: every failure inside the advice pipeline is contained:
the pipeline never changes the relay state (observer sets, buffers,
metadata); a profile-fetch failure behaves exactly like an absent profile
record (advice generation still runs, without enrichment); a generation
failure produces no external effect while the watermark, once advanced at
trigger time, stays advanced, so an immediate re-check of the same trigger
does not fire again; and a persistence failure changes neither the state nor
the broadcast effects. -/
theorem advice_pipeline_failures_contained (st : ConnectionManager)
    (sid : String) (db : Option String)
    (fetch : String → Except Unit (Option Subordinate))
    (gen : String → Except Unit String) (saveOk : Bool) :
    ((generate_advice ⟨fetch, gen, saveOk⟩ st sid db).1.active_connections
        = st.active_connections ∧
      (generate_advice ⟨fetch, gen, saveOk⟩ st sid db).1.transcripts
        = st.transcripts ∧
      (generate_advice ⟨fetch, gen, saveOk⟩ st sid db).1.session_metadata
        = st.session_metadata) ∧
    (generate_advice ⟨fun _ => Except.error (), gen, saveOk⟩ st sid db
      = generate_advice ⟨fun _ => Except.ok none, gen, saveOk⟩ st sid db) ∧
    ((generate_advice ⟨fetch, fun _ => Except.error (), saveOk⟩ st sid db).2
      = []) ∧
    ((10 : Int) ≤ (st.get_transcript_count sid : Int)
        - (st.get_last_advice_count sid : Int) →
      ((generate_advice ⟨fetch, fun _ => Except.error (), saveOk⟩
          st sid db).1.get_last_advice_count sid
        = st.get_transcript_count sid) ∧
      generate_advice ⟨fetch, gen, saveOk⟩
          ((generate_advice ⟨fetch, fun _ => Except.error (), saveOk⟩
            st sid db).1) sid db
        = ((generate_advice ⟨fetch, fun _ => Except.error (), saveOk⟩
            st sid db).1, [])) ∧
    ((generate_advice ⟨fetch, gen, false⟩ st sid db).1
        = (generate_advice ⟨fetch, gen, true⟩ st sid db).1 ∧
      (generate_advice ⟨fetch, gen, false⟩ st sid db).2.filter
          isObserverBroadcast
        = (generate_advice ⟨fetch, gen, true⟩ st sid db).2.filter
            isObserverBroadcast) := by
  have hfire : ∀ (env : AdviceEnv),
      (10 : Int) ≤ (st.get_transcript_count sid : Int)
        - (st.get_last_advice_count sid : Int) →
      (generate_advice env st sid db).1
        = st.update_last_advice_count sid (st.get_transcript_count sid) := by
    intro env h
    rw [generate_advice_state, maybe_trigger_state,
      if_pos ((maybe_trigger_fired st sid).mpr h)]
  refine ⟨?_, ?_, ?_, ?_, ?_⟩
  · rw [generate_advice_state]
    exact maybe_trigger_preserves st sid
  · simp only [generate_advice]
    split
    · rfl
    · rw [advice_effects_fetch_error]
  · simp only [generate_advice]
    split
    · rfl
    · exact advice_effects_gen_error fetch saveOk
        (st.update_last_advice_count sid (st.get_transcript_count sid)) sid db
  · intro h
    have h1 := hfire ⟨fetch, fun _ => Except.error (), saveOk⟩ h
    constructor
    · rw [h1, last_update_last]
    · rw [h1]
      simp only [generate_advice, count_update_last, last_update_last]
      rw [if_pos (by omega)]
  · constructor
    · rw [generate_advice_state, generate_advice_state]
    · simp only [generate_advice]
      split
      · rfl
      · exact advice_effects_save_filter fetch gen
          (st.update_last_advice_count sid (st.get_transcript_count sid)) sid db

/-- A session state with ten entries buffered for key `"s"` and a zero
watermark: the throttle is exactly at its firing threshold. -/
def cm10 : ConnectionManager :=
  ⟨fun _ => none,
   fun k => if k = "s" then some (List.replicate 10 ⟨0, "x"⟩) else none,
   fun _ => none, fun _ => none⟩

/-- Witness for C9: at ten buffered entries, a generation failure still
leaves the watermark advanced to 10. -/
theorem advice_pipeline_failures_contained_witness :
    (generate_advice ⟨fun _ => Except.ok none, fun _ => Except.error (), true⟩
        cm10 "s" none).1.get_last_advice_count "s"
      = cm10.get_transcript_count "s" :=
  ((advice_pipeline_failures_contained cm10 "s" none
      (fun _ => Except.ok none) (fun _ => Except.ok "advice") true).2.2.2.1
    (by decide)).1

end OneOnOne
